import Mathlib

/-
Verification of the dispatch core of `angr/project_abs.py` (class
`AbsProject`): initial-state construction, the address-keyed
SimProcedure override table, and the `sim_run` execution-unit resolver.

The embedding is shallow: each Python method becomes a pure Lean
function.  Register stores (`SimState.store_reg`) are recorded as an
explicit ordered trace of writes; Python exceptions become `Except`
errors carrying the same data the exception messages carry.
-/

deriving instance DecidableEq for Except

namespace Angr

/-- A single register write issued by `SimState.store_reg(offset, value, size)`. -/
structure RegWrite where
  offset : Nat
  value : Nat
  size : Nat
deriving DecidableEq

/-- Architecture metadata consumed from the external arch layer
(`s.arch` in the source): name, stack-pointer register offset,
instruction alignment in bytes. -/
structure Arch where
  name : String
  sp_offset : Nat
  instruction_alignment : Nat
deriving DecidableEq

/-- Errors raised by the embedded methods, mirroring the source's
exceptions and the data interpolated into their messages:
`exitErrorState` and `exitMisaligned` are the two `AngrExitError`
raises in `sim_run`; `memoryNoThumbInfo` is the `AngrMemoryError`
raised in `block`; `unsupportedArch` is the plain `Exception` raised in
`initial_state`; `unresolvedTarget` models the external state engine's
failure when `where.concretize()` yields no single value. -/
inductive AngrError where
  | exitErrorState (jumpkind : Option String)
  | exitMisaligned (addr alignment : Nat) (archName : String)
  | memoryNoThumbInfo (addr : Nat)
  | unsupportedArch (name : String)
  | unresolvedTarget
deriving DecidableEq

/-- The slice of a simuvex `SimState` this core observes: its
architecture, the `mode`/`options` it was created with, and the ordered
trace of register writes applied to it. -/
structure SimState where
  arch : Arch
  mode : Option String
  options : Option (List String)
  writes : List RegWrite
deriving DecidableEq

/-- `s.store_reg(offset, value, size)`: appends one write to the trace. -/
def SimState.store_reg (s : SimState) (offset value size : Nat) : SimState :=
  { s with writes := s.writes ++ [⟨offset, value, size⟩] }

/-- Final value held at a register offset after a trace of writes: the
value of the last write touching that offset, if any. -/
def readFinal (writes : List RegWrite) (offset : Nat) : Option Nat :=
  (writes.reverse.find? (fun w => w.offset == offset)).map (fun w => w.value)

/-- A simuvex `SimExit`: a pending control-flow target.  `target` is
the concretized jump target (`none` models the state engine failing to
concretize to a single value); `is_error` / `is_syscall` are the flags
`sim_run` dispatches on. -/
structure SimExit where
  target : Option Nat
  state : SimState
  jumpkind : Option String
  is_error : Bool
  is_syscall : Bool
deriving DecidableEq

/-- Modelled from the spec: `SimExit.concretize` belongs to the
external state engine (simuvex, not under src/); it yields the single
concrete value of the target or fails (`UnresolvedTarget`) when no
single value results. -/
def SimExit.concretize (e : SimExit) : Except AngrError Nat :=
  match e.target with
  | some a => .ok a
  | none => .error .unresolvedTarget

/-- A SimProcedure descriptor (the `sim_proc` class registered for an
address), identified by its variant. -/
structure SimProcDescr where
  variant : String
deriving DecidableEq

/-- Keyword arguments stored alongside a SimProcedure. -/
abbrev Kwargs := List (String × Nat)

/-- `self.sim_procedures`: the address-keyed override dictionary. -/
abbrev SimProcTable := List (Nat × (SimProcDescr × Kwargs))

/-- Diagnostic levels of the `logging` calls the embedded methods make. -/
inductive LogLevel where
  | debug
  | warning
deriving DecidableEq

/-- The lift request `block` hands to the external lifter
(`self.vexer.block(addr, max_size, num_inst, traceflags, thumb)`),
recorded verbatim as the produced block. -/
structure LiftedBlock where
  addr : Nat
  max_size : Option Nat
  num_inst : Option Nat
  traceflags : Nat
  thumb : Bool
deriving DecidableEq

/-- The loader/disassembler view of a binary, as used by `block`:
`getRegT addr` is `binary.ida.idc.GetReg(addr, "T")`. -/
structure IdaBinary where
  getRegT : Nat → Nat

/-- The SimRun produced by `sim_run`: a syscall-handler invocation, a
SimProcedure invocation, or a lifted-block (`SimIRSB`) execution. -/
inductive SimRun where
  | syscallHandler (state : SimState) (addr : Nat)
  | simProcedure (descr : SimProcDescr) (kwargs : Kwargs) (state : SimState) (addr : Nat)
  | simIRSB (state : SimState) (irsb : LiftedBlock) (addr : Nat)
deriving DecidableEq

/-- The classification tag of a SimRun. -/
inductive RunClass where
  | syscallHandler
  | simProcedure
  | simIRSB
deriving DecidableEq

/-- Tag of a produced SimRun. -/
def SimRun.tagOf : SimRun → RunClass
  | .syscallHandler _ _ => .syscallHandler
  | .simProcedure _ _ _ _ => .simProcedure
  | .simIRSB _ _ _ => .simIRSB

/-- Concrete address a produced SimRun is bound to. -/
def SimRun.addrOf : SimRun → Nat
  | .syscallHandler _ a => a
  | .simProcedure _ _ _ a => a
  | .simIRSB _ _ a => a

/-- The `(max_size, num_inst)` limits forwarded to the lifter, visible
on a lifted-block SimRun; `none` for the other variants. -/
def SimRun.liftLimits : SimRun → Option (Option Nat × Option Nat)
  | .simIRSB _ irsb _ => some (irsb.max_size, irsb.num_inst)
  | _ => none

/-- The fields of `AbsProject` the embedded methods read.
`binary_by_addr` is implemented by the subclasses (`Project_ida`),
abstract here exactly as in the source class. -/
structure AbsProject where
  arch : Arch
  default_analysis_mode : String
  sim_procedures : SimProcTable
  binary_by_addr : Nat → Option IdaBinary

/-- `AbsProject.initial_state(options=None, mode=None)`: substitutes
the default analysis mode when both `mode` and `options` are `None`,
creates the state, then initializes registers per architecture name
(an if/elif chain on `s.arch.name`); unknown names raise
`Exception("Architecture %s is not supported.")`. -/
def AbsProject.initial_state (p : AbsProject)
    (options : Option (List String) := none) (mode : Option String := none) :
    Except AngrError SimState :=
  let mode := if mode.isNone ∧ options.isNone then some p.default_analysis_mode else mode
  let s : SimState := { arch := p.arch, mode := mode, options := options, writes := [] }
  if s.arch.name = "AMD64" then
    .ok ((s.store_reg 176 1 8).store_reg s.arch.sp_offset 0xfffffffffff0000 8)
  else if s.arch.name = "X86" then
    .ok (s.store_reg s.arch.sp_offset 0x7fff0000 4)
  else if s.arch.name = "ARM" then
    .ok ((s.store_reg s.arch.sp_offset 0xffff0000 4).store_reg 0x188 0x00000000 4)
  else if s.arch.name = "PPC32" then
    .ok (s.store_reg s.arch.sp_offset 0xffff0000 4)
  else if s.arch.name = "MIPS32" then
    .ok (s.store_reg s.arch.sp_offset 0xffff0000 4)
  else
    .error (.unsupportedArch s.arch.name)

/-- `AbsProject.block(addr, max_size=None, num_inst=None, traceflags=0)`:
on ARM, raises `AngrMemoryError` when `binary_by_addr(addr)` is `None`,
otherwise sets `thumb` from the loader's T register; on every other
architecture `thumb` stays `False`.  The call to `self.vexer.block`
(external lifter) is recorded as the returned `LiftedBlock`. -/
def AbsProject.block (p : AbsProject) (addr : Nat) (max_size : Option Nat := none)
    (num_inst : Option Nat := none) (traceflags : Nat := 0) :
    Except AngrError LiftedBlock :=
  if p.arch.name = "ARM" then
    match p.binary_by_addr addr with
    | none => .error (.memoryNoThumbInfo addr)
    | some b =>
      .ok ⟨addr, max_size, num_inst, traceflags, b.getRegT addr == 1⟩
  else
    .ok ⟨addr, max_size, num_inst, traceflags, false⟩

/-- `AbsProject.sim_block(where, max_size=None, num_inst=None, ...)`:
lifts a block at `where.concretize()` and wraps it in a `SimIRSB`
(whose `addr` argument is again `where.concretize()`). -/
def AbsProject.sim_block (p : AbsProject) (wh : SimExit)
    (max_size : Option Nat := none) (num_inst : Option Nat := none) :
    Except AngrError SimRun :=
  match wh.concretize with
  | .error e => .error e
  | .ok a =>
    match p.block a max_size num_inst with
    | .error e => .error e
    | .ok irsb =>
      match wh.concretize with
      | .error e => .error e
      | .ok a2 => .ok (.simIRSB wh.state irsb a2)

/-- `AbsProject.is_sim_procedure(hashed_addr)`:
`hashed_addr in self.sim_procedures`. -/
def is_sim_procedure (table : SimProcTable) (hashed_addr : Nat) : Bool :=
  (table.lookup hashed_addr).isSome

/-- `AbsProject.sim_run(where, max_size=400, num_inst=None, ...)`: the
resolver.  In source order: raise on `where.is_error`; concretize;
raise on misalignment against `state.arch.instruction_alignment`;
dispatch the syscall handler if `where.is_syscall`; dispatch the
registered SimProcedure if `is_sim_procedure(addr)` (the lookup
`self.sim_procedures[addr]` is the `some` branch of the match);
otherwise lift via `sim_block`. -/
def AbsProject.sim_run (p : AbsProject) (wh : SimExit)
    (max_size : Option Nat := some 400) (num_inst : Option Nat := none) :
    Except AngrError SimRun :=
  if wh.is_error then
    .error (.exitErrorState wh.jumpkind)
  else
    match wh.concretize with
    | .error e => .error e
    | .ok addr =>
      if addr % wh.state.arch.instruction_alignment ≠ 0 then
        .error (.exitMisaligned addr wh.state.arch.instruction_alignment
                  wh.state.arch.name)
      else if wh.is_syscall then
        .ok (.syscallHandler wh.state addr)
      else
        match p.sim_procedures.lookup addr with
        | some (cls, kwargs) => .ok (.simProcedure cls kwargs wh.state addr)
        | none => p.sim_block wh max_size num_inst

/-- Result of `AbsProject.add_custom_sim_procedure`: the table after
the call, the truthiness of the Python return value, and the
diagnostics logged during the call. -/
structure RegisterResult where
  table : SimProcTable
  ret : Bool
  log : List (LogLevel × String)
deriving DecidableEq

/-- `AbsProject.add_custom_sim_procedure(address, sim_proc, kwargs)`:
if the address is already keyed, logs a warning and returns early,
leaving the table unchanged; otherwise stores `(sim_proc, kwargs)`
(with `kwargs` defaulted to an empty dict when `None`).  The source
returns `None` on both paths (a bare `return` on the duplicate path, an
implicit `None` otherwise), so `ret` — the truthiness of the returned
value — is `false` on both paths. -/
def add_custom_sim_procedure (table : SimProcTable) (address : Nat)
    (sim_proc : SimProcDescr) (kwargs : Option Kwargs) : RegisterResult :=
  if (table.lookup address).isSome then
    { table := table, ret := false,
      log := [(.warning, "Address is already in SimProcedure dict.")] }
  else
    { table := table ++ [(address, (sim_proc, kwargs.getD []))], ret := false,
      log := [] }

/-- The spec's documented per-architecture extra initialization writes
(§3 ArchitectureProfile): the AMD64 write to offset 176 and the ARM
thumb-bit write to offset 0x188. -/
def specExtraWrites : String → List RegWrite
  | "AMD64" => [⟨176, 1, 8⟩]
  | "ARM" => [⟨0x188, 0x00000000, 4⟩]
  | _ => []

/-- The spec's documented default stack-pointer value per architecture. -/
def specDefaultSp : String → Nat
  | "AMD64" => 0xfffffffffff0000
  | "X86" => 0x7fff0000
  | "ARM" => 0xffff0000
  | "PPC32" => 0xffff0000
  | "MIPS32" => 0xffff0000
  | _ => 0

/-- The spec's stack-pointer initialization write for an architecture. -/
def specSpWrite (a : Arch) : RegWrite :=
  ⟨a.sp_offset, specDefaultSp a.name, if a.name = "AMD64" then 8 else 4⟩

/-- The recognized architecture names of `initial_state`'s dispatch chain. -/
def supportedArchNames : List String := ["AMD64", "X86", "ARM", "PPC32", "MIPS32"]

/- Concrete fixtures used by counterexamples and witnesses. -/

/-- A concrete ARM architecture (sp offset distinct from the thumb-bit
offset 0x188). -/
def armArch : Arch := ⟨"ARM", 60, 4⟩

/-- A concrete X86 architecture. -/
def x86Arch : Arch := ⟨"X86", 24, 1⟩

/-- An ARM project with no loader information at any address. -/
def armProject : AbsProject :=
  { arch := armArch, default_analysis_mode := "symbolic",
    sim_procedures := [], binary_by_addr := fun _ => none }

/-- An X86 project with one SimProcedure registered at 0x401020. -/
def x86Project : AbsProject :=
  { arch := x86Arch, default_analysis_mode := "symbolic",
    sim_procedures := [(0x401020, (⟨"memcpy"⟩, []))],
    binary_by_addr := fun _ => none }

/-- A project over an architecture outside the recognized set. -/
def sparcProject : AbsProject :=
  { arch := ⟨"SPARC", 14, 4⟩, default_analysis_mode := "symbolic",
    sim_procedures := [], binary_by_addr := fun _ => none }

/-- The state `armProject.initial_state` produces: symbolic mode, the
stack-pointer write followed by the thumb-bit write. -/
def armInitState : SimState :=
  ⟨armArch, some "symbolic", none, [⟨60, 0xffff0000, 4⟩, ⟨0x188, 0x00000000, 4⟩]⟩

/-- An X86 machine state with symbolic-mode defaults and no writes. -/
def x86State : SimState := ⟨x86Arch, some "symbolic", none, []⟩

/-- An ARM machine state with symbolic-mode defaults and no writes. -/
def armState : SimState := ⟨armArch, some "symbolic", none, []⟩

/-- Claim C1: an ExecutionLocation flagged as a syscall whose concrete
address also has a registered override is classified as a
syscall-handler invocation, never as a procedure hook: `sim_run` tests
`where.is_syscall` before consulting the override table. -/
theorem C1_syscall_precedes_override (p : AbsProject) (wh : SimExit) (addr : Nat)
    (ms ni : Option Nat)
    (he : wh.is_error = false) (ht : wh.target = some addr)
    (hal : addr % wh.state.arch.instruction_alignment = 0)
    (hsys : wh.is_syscall = true)
    (_hhook : is_sim_procedure p.sim_procedures addr = true) :
    p.sim_run wh ms ni = .ok (.syscallHandler wh.state addr) := by
  simp [AbsProject.sim_run, SimExit.concretize, he, ht, hal, hsys]

/-- Witness for C1: a syscall exit to 0x401020, which also carries a
registered SimProcedure, resolves to the syscall handler. -/
theorem C1_syscall_precedes_override_witness :
    x86Project.sim_run ⟨some 0x401020, x86State, some "Ijk_Sys_syscall", false, true⟩
        (some 400) none
      = .ok (.syscallHandler x86State 0x401020) :=
  C1_syscall_precedes_override x86Project
    ⟨some 0x401020, x86State, some "Ijk_Sys_syscall", false, true⟩ 0x401020
    (some 400) none rfl rfl (by decide) rfl (by decide)

/-- Claim C2: a concretized address that is misaligned for the
architecture makes `sim_run` fail with the misalignment error carrying
the address, the required alignment and the architecture name,
whatever the syscall flag or the override table — the syscall, hooking
and lifting steps are never reached. -/
theorem C2_misaligned_fails (p : AbsProject) (wh : SimExit) (addr : Nat)
    (ms ni : Option Nat)
    (he : wh.is_error = false) (ht : wh.target = some addr)
    (hal : addr % wh.state.arch.instruction_alignment ≠ 0) :
    p.sim_run wh ms ni =
      .error (.exitMisaligned addr wh.state.arch.instruction_alignment
                wh.state.arch.name) := by
  simp [AbsProject.sim_run, SimExit.concretize, he, ht, hal]

/-- Witness for C2: address 0x8001 on ARM (alignment 4) is rejected as
misaligned, even though the exit is flagged as a syscall. -/
theorem C2_misaligned_fails_witness :
    armProject.sim_run ⟨some 0x8001, armState, none, false, true⟩ (some 400) none
      = .error (.exitMisaligned 0x8001 4 "ARM") :=
  C2_misaligned_fails armProject ⟨some 0x8001, armState, none, false, true⟩ 0x8001
    (some 400) none rfl rfl (by decide)

/-- Claim C3: an ExecutionLocation flagged as an error makes `sim_run`
fail with the invalid-execution-state error carrying the location's
jumpkind, before concretization and any dispatch — the result does not
depend on the target, the syscall flag or the override table. -/
theorem C3_error_exit_fails (p : AbsProject) (wh : SimExit) (ms ni : Option Nat)
    (he : wh.is_error = true) :
    p.sim_run wh ms ni = .error (.exitErrorState wh.jumpkind) := by
  simp [AbsProject.sim_run, he]

/-- Witness for C3: an error-flagged exit whose target is not even
concretizable still fails with the invalid-execution-state error. -/
theorem C3_error_exit_fails_witness :
    x86Project.sim_run ⟨none, x86State, some "Ijk_SigTRAP", true, false⟩
        (some 400) none
      = .error (.exitErrorState (some "Ijk_SigTRAP")) :=
  C3_error_exit_fails x86Project ⟨none, x86State, some "Ijk_SigTRAP", true, false⟩
    (some 400) none rfl

/-- Claim C7: on ARM, `block` fails when the loader has no information
at the address (`binary_by_addr` is `None`) instead of defaulting the
thumb flag; on any other architecture the flag handed to the lifter is
always `false`. -/
theorem C7_thumb_mode (p : AbsProject) (addr : Nat) (ms ni : Option Nat) (tf : Nat) :
    (p.arch.name = "ARM" → p.binary_by_addr addr = none →
      p.block addr ms ni tf = .error (.memoryNoThumbInfo addr)) ∧
    (p.arch.name ≠ "ARM" →
      (p.block addr ms ni tf).map LiftedBlock.thumb = .ok false) := by
  constructor
  · intro h1 h2
    simp [AbsProject.block, h1, h2]
  · intro h1
    simp [AbsProject.block, h1, Except.map]

/-- Witness for C7: the ARM project with no loader information fails at
0x8000, and the X86 project lifts with a false thumb flag. -/
theorem C7_thumb_mode_witness :
    armProject.block 0x8000 none none 0 = .error (.memoryNoThumbInfo 0x8000) ∧
    (x86Project.block 0x8000 none none 0).map LiftedBlock.thumb = .ok false :=
  ⟨(C7_thumb_mode armProject 0x8000 none none 0).1 rfl rfl,
   (C7_thumb_mode x86Project 0x8000 none none 0).2 (by decide)⟩

/-- Claim C10: a `sim_run` call that supplies no limits forwards a
maximum block size of 400 bytes and no instruction limit to the
external lifter (shown here on a non-ARM architecture so that lifting
succeeds). -/
theorem C10_default_limits (p : AbsProject) (wh : SimExit) (addr : Nat)
    (he : wh.is_error = false) (ht : wh.target = some addr)
    (hal : addr % wh.state.arch.instruction_alignment = 0)
    (hsys : wh.is_syscall = false)
    (hhook : p.sim_procedures.lookup addr = none)
    (harm : p.arch.name ≠ "ARM") :
    p.sim_run wh = .ok (.simIRSB wh.state ⟨addr, some 400, none, 0, false⟩ addr) := by
  simp [AbsProject.sim_run, AbsProject.sim_block, AbsProject.block,
        SimExit.concretize, he, ht, hal, hsys, hhook, harm]

/-- Witness for C10: resolving 0x400000 on the X86 project with no
limits supplied produces a lifted block restricted to 400 bytes and
unbounded in instruction count. -/
theorem C10_default_limits_witness :
    x86Project.sim_run ⟨some 0x400000, x86State, none, false, false⟩
      = .ok (.simIRSB x86State ⟨0x400000, some 400, none, 0, false⟩ 0x400000) :=
  C10_default_limits x86Project ⟨some 0x400000, x86State, none, false, false⟩
    0x400000 rfl rfl (by decide) rfl (by decide) (by decide)

/-- Claim C8: with the same project (hence the same override table),
two non-error exits agreeing on their syscall flag, their concretized
target and their architecture resolve to results with the same
classification tag and the same concrete address, whatever their other
fields (state contents, jumpkind) or the supplied limits. -/
theorem C8_resolve_consistent (p : AbsProject) (w1 w2 : SimExit)
    (ms1 ni1 ms2 ni2 : Option Nat)
    (he1 : w1.is_error = false) (he2 : w2.is_error = false)
    (hs : w1.is_syscall = w2.is_syscall) (ht : w1.target = w2.target)
    (ha : w1.state.arch = w2.state.arch) :
    (p.sim_run w1 ms1 ni1).map (fun r => (r.tagOf, r.addrOf)) =
    (p.sim_run w2 ms2 ni2).map (fun r => (r.tagOf, r.addrOf)) := by
  cases hx : w2.target with
  | none =>
    simp [AbsProject.sim_run, SimExit.concretize, he1, he2, ht, hx]
  | some a =>
    by_cases hal : a % w2.state.arch.instruction_alignment ≠ 0
    · simp [AbsProject.sim_run, SimExit.concretize, he1, he2, ht, hx, ha, hal]
    · cases hsy : w2.is_syscall with
      | true =>
        simp [AbsProject.sim_run, SimExit.concretize, he1, he2, ht, hx, ha, hal,
              hs, hsy, SimRun.tagOf, SimRun.addrOf, Except.map]
      | false =>
        cases hl : p.sim_procedures.lookup a with
        | some v =>
          simp [AbsProject.sim_run, SimExit.concretize, he1, he2, ht, hx, ha, hal,
                hs, hsy, hl, SimRun.tagOf, SimRun.addrOf, Except.map]
        | none =>
          simp only [AbsProject.sim_run, AbsProject.sim_block, AbsProject.block,
                     SimExit.concretize, he1, he2, ht, hx, ha, hal, hs, hsy, hl]
          by_cases harm : p.arch.name = "ARM"
          · cases hb : p.binary_by_addr a with
            | none =>
              simp [harm, hb, Except.map]
            | some b =>
              simp [harm, hb, SimRun.tagOf, SimRun.addrOf, Except.map]
          · simp [harm, SimRun.tagOf, SimRun.addrOf, Except.map]

/-- Witness for C8: two exits to 0x400000 with different jumpkinds and
different limits resolve to the same tag and address. -/
theorem C8_resolve_consistent_witness :
    (x86Project.sim_run ⟨some 0x400000, x86State, none, false, false⟩
        (some 400) none).map (fun r => (r.tagOf, r.addrOf)) =
    (x86Project.sim_run ⟨some 0x400000, ⟨x86Arch, none, none, []⟩, some "Ijk_Boring",
        false, false⟩ (some 20) (some 1)).map (fun r => (r.tagOf, r.addrOf)) :=
  C8_resolve_consistent x86Project
    ⟨some 0x400000, x86State, none, false, false⟩
    ⟨some 0x400000, ⟨x86Arch, none, none, []⟩, some "Ijk_Boring", false, false⟩
    (some 400) none (some 20) (some 1) rfl rfl rfl rfl rfl

/-- Looking a key up in an association list extended on the right
skips the prior bindings when the key is absent from them. -/
theorem lookup_append_of_none {β : Type} (l1 l2 : List (Nat × β)) (a : Nat)
    (h : l1.lookup a = none) : (l1 ++ l2).lookup a = l2.lookup a := by
  induction l1 with
  | nil => simp
  | cons x xs ih =>
    obtain ⟨k, b⟩ := x
    simp only [List.cons_append, List.lookup] at h ⊢
    cases hax : a == k with
    | true => simp [hax] at h
    | false => simp only [hax] at h ⊢; exact ih h

/-- Claim C4: registering a descriptor at a fresh address stores it;
a second registration at the same address with a different descriptor
leaves the table unchanged, logs a warning, and the call's Python
return value is falsy; after either call the address is recognized as
having an override, and lookup still yields the first descriptor. -/
theorem C4_register_no_clobber (t0 : SimProcTable) (address : Nat)
    (d1 d2 : SimProcDescr) (k1 k2 : Option Kwargs)
    (h0 : t0.lookup address = none) (_hd : d1 ≠ d2) :
    (add_custom_sim_procedure t0 address d1 k1).table.lookup address
        = some (d1, k1.getD []) ∧
    (add_custom_sim_procedure
        (add_custom_sim_procedure t0 address d1 k1).table address d2 k2).table
      = (add_custom_sim_procedure t0 address d1 k1).table ∧
    (add_custom_sim_procedure
        (add_custom_sim_procedure t0 address d1 k1).table address d2 k2).ret
      = false ∧
    (add_custom_sim_procedure
        (add_custom_sim_procedure t0 address d1 k1).table address d2 k2).log
      = [(.warning, "Address is already in SimProcedure dict.")] ∧
    (add_custom_sim_procedure
        (add_custom_sim_procedure t0 address d1 k1).table address d2 k2).table.lookup
        address = some (d1, k1.getD []) ∧
    is_sim_procedure (add_custom_sim_procedure t0 address d1 k1).table address
      = true ∧
    is_sim_procedure
      (add_custom_sim_procedure
        (add_custom_sim_procedure t0 address d1 k1).table address d2 k2).table
      address = true := by
  have h1 : (t0 ++ [(address, (d1, k1.getD []))]).lookup address
      = some (d1, k1.getD []) := by
    rw [lookup_append_of_none t0 _ address h0]
    simp [List.lookup]
  simp [add_custom_sim_procedure, is_sim_procedure, h0, h1]

/-- Witness for C4: registering a memcpy descriptor at 0x401020 and
then a strlen descriptor at the same address keeps the memcpy entry. -/
theorem C4_register_no_clobber_witness :
    (add_custom_sim_procedure [] 0x401020 ⟨"memcpy"⟩ none).table.lookup 0x401020
        = some (⟨"memcpy"⟩, []) ∧
    (add_custom_sim_procedure
        (add_custom_sim_procedure [] 0x401020 ⟨"memcpy"⟩ none).table 0x401020
        ⟨"strlen"⟩ none).table
      = (add_custom_sim_procedure [] 0x401020 ⟨"memcpy"⟩ none).table ∧
    (add_custom_sim_procedure
        (add_custom_sim_procedure [] 0x401020 ⟨"memcpy"⟩ none).table 0x401020
        ⟨"strlen"⟩ none).ret = false ∧
    (add_custom_sim_procedure
        (add_custom_sim_procedure [] 0x401020 ⟨"memcpy"⟩ none).table 0x401020
        ⟨"strlen"⟩ none).log
      = [(.warning, "Address is already in SimProcedure dict.")] ∧
    (add_custom_sim_procedure
        (add_custom_sim_procedure [] 0x401020 ⟨"memcpy"⟩ none).table 0x401020
        ⟨"strlen"⟩ none).table.lookup 0x401020 = some (⟨"memcpy"⟩, []) ∧
    is_sim_procedure (add_custom_sim_procedure [] 0x401020 ⟨"memcpy"⟩ none).table
      0x401020 = true ∧
    is_sim_procedure
      (add_custom_sim_procedure
        (add_custom_sim_procedure [] 0x401020 ⟨"memcpy"⟩ none).table 0x401020
        ⟨"strlen"⟩ none).table 0x401020 = true :=
  C4_register_no_clobber [] 0x401020 ⟨"memcpy"⟩ ⟨"strlen"⟩ none none rfl (by decide)

/-- A successful `initial_state` call carries the mode `SimState` was
created with: the default analysis mode exactly when both `mode` and
`options` were absent, the supplied `mode` otherwise; every
per-architecture register write leaves the mode untouched. -/
theorem initial_state_mode (p : AbsProject) (o : Option (List String))
    (m : Option String) (s : SimState) (h : p.initial_state o m = .ok s) :
    s.mode = if m.isNone ∧ o.isNone then some p.default_analysis_mode else m := by
  unfold AbsProject.initial_state at h
  simp only [] at h
  split_ifs at h <;> simp only [Except.ok.injEq] at h <;> subst h <;>
    first
      | rfl
      | (split <;> first | rfl | simp_all)

/-- Claim C9: the default analysis mode is substituted only when both
`mode` and `options` are absent — supplying `options` alone leaves the
state's mode unset, while supplying neither installs the default. -/
theorem C9_mode_only_when_both_absent (p : AbsProject) (o : List String)
    (s s2 : SimState)
    (h1 : p.initial_state (some o) none = .ok s)
    (h2 : p.initial_state none none = .ok s2) :
    s.mode = none ∧ s2.mode = some p.default_analysis_mode := by
  have e1 := initial_state_mode p (some o) none s h1
  have e2 := initial_state_mode p none none s2 h2
  simp at e1 e2
  exact ⟨e1, e2⟩

/-- Witness for C9: on the X86 project, supplying only options leaves
the mode unset; supplying neither installs the default mode. -/
theorem C9_mode_only_when_both_absent_witness :
    (SimState.mk x86Arch none (some []) [⟨24, 0x7fff0000, 4⟩]).mode = none ∧
    (SimState.mk x86Arch (some "symbolic") none [⟨24, 0x7fff0000, 4⟩]).mode
      = some x86Project.default_analysis_mode :=
  C9_mode_only_when_both_absent x86Project []
    (SimState.mk x86Arch none (some []) [⟨24, 0x7fff0000, 4⟩])
    (SimState.mk x86Arch (some "symbolic") none [⟨24, 0x7fff0000, 4⟩])
    (by decide) (by decide)

/-- Claim C6: for an architecture name outside the recognized set,
`initial_state` fails with the unsupported-architecture error and
issues no register writes, whatever mode and options are supplied. -/
theorem C6_unsupported_arch (p : AbsProject) (o : Option (List String))
    (m : Option String)
    (h : p.arch.name ∉ supportedArchNames) :
    p.initial_state o m = .error (.unsupportedArch p.arch.name) := by
  simp only [supportedArchNames, List.mem_cons, List.not_mem_nil, or_false,
             not_or] at h
  obtain ⟨h1, h2, h3, h4, h5⟩ := h
  unfold AbsProject.initial_state
  simp [h1, h2, h3, h4, h5]

/-- Witness for C6: a SPARC project cannot build an initial state. -/
theorem C6_unsupported_arch_witness :
    sparcProject.initial_state none none
      = .error (.unsupportedArch "SPARC") :=
  C6_unsupported_arch sparcProject none none (by decide)

/-- The last write to an offset determines the final value read there. -/
theorem readFinal_append_last (ws : List RegWrite) (w : RegWrite) :
    readFinal (ws ++ [w]) w.offset = some w.value := by
  simp [readFinal, List.find?_cons_of_pos]

/-- A trailing write to a different offset does not affect the value
read at an offset. -/
theorem readFinal_append_skip (ws : List RegWrite) (w : RegWrite) (offset : Nat)
    (h : w.offset ≠ offset) : readFinal (ws ++ [w]) offset = readFinal ws offset := by
  simp only [readFinal, List.reverse_append, List.reverse_cons, List.reverse_nil,
             List.nil_append, List.cons_append, List.find?]
  have hb : (w.offset == offset) = false := by simpa using h
  rw [hb]

/-- The write trace a successful `initial_state` call leaves on the
returned state: on ARM the stack-pointer write followed by the extra
(thumb-bit) write, on the other recognized architectures the extra
writes followed by the stack-pointer write. -/
theorem initial_state_writes (p : AbsProject) (o : Option (List String))
    (m : Option String) (s : SimState) (h : p.initial_state o m = .ok s) :
    s.writes = (if p.arch.name = "ARM"
        then specSpWrite p.arch :: specExtraWrites p.arch.name
        else specExtraWrites p.arch.name ++ [specSpWrite p.arch]) := by
  unfold AbsProject.initial_state at h
  simp only [] at h
  split_ifs at h <;> simp only [Except.ok.injEq] at h <;> subst h <;>
    simp_all [SimState.store_reg, specExtraWrites, specSpWrite, specDefaultSp]

/-- Counterexample to claim C5 as stated: on ARM, `initial_state` sets
the stack pointer first and applies the extra (thumb-bit)
initialization write second, so the trace is not the extra writes
followed by the stack-pointer write. -/
theorem C5_counterexample :
    ¬ ((armProject.initial_state none none).map SimState.writes
        = .ok (specExtraWrites armProject.arch.name
                ++ [specSpWrite armProject.arch])) := by
  decide

/-- Claim C5 (amended): a successful `initial_state` applies exactly
the extra initialization writes and the stack-pointer write, but on
ARM the stack-pointer write precedes the extra (thumb-bit) write
rather than following it; in every case the stack-pointer register's
final value is the architecture's documented default (on ARM, provided
the stack-pointer offset differs from the thumb-bit offset 0x188). -/
theorem C5_amended_write_order (p : AbsProject) (o : Option (List String))
    (m : Option String) (s : SimState) (h : p.initial_state o m = .ok s) :
    (s.writes = if p.arch.name = "ARM"
        then specSpWrite p.arch :: specExtraWrites p.arch.name
        else specExtraWrites p.arch.name ++ [specSpWrite p.arch]) ∧
    (p.arch.name = "ARM" → p.arch.sp_offset ≠ 0x188 →
      readFinal s.writes p.arch.sp_offset = some (specDefaultSp p.arch.name)) ∧
    (p.arch.name ≠ "ARM" →
      readFinal s.writes p.arch.sp_offset = some (specDefaultSp p.arch.name)) := by
  have hw := initial_state_writes p o m s h
  refine ⟨hw, ?_, ?_⟩
  · intro hA hne
    rw [hw, if_pos hA, hA]
    have : ([specSpWrite p.arch] ++ [(⟨0x188, 0x00000000, 4⟩ : RegWrite)]) =
        specSpWrite p.arch :: specExtraWrites "ARM" := by
      simp [specExtraWrites]
    rw [← this, readFinal_append_skip _ _ _ (by simpa using Ne.symm hne)]
    have hlast := readFinal_append_last [] (specSpWrite p.arch)
    simpa [specSpWrite, hA] using hlast
  · intro hA
    rw [hw, if_neg hA]
    have hlast := readFinal_append_last (specExtraWrites p.arch.name)
      (specSpWrite p.arch)
    simpa [specSpWrite] using hlast

/-- Witness for C5 (amended): on the concrete ARM project the trace is
the stack-pointer write then the thumb-bit write, and the final value
at the stack-pointer offset is the documented default. -/
theorem C5_amended_write_order_witness :
    (armInitState.writes = if armProject.arch.name = "ARM"
        then specSpWrite armProject.arch :: specExtraWrites armProject.arch.name
        else specExtraWrites armProject.arch.name
              ++ [specSpWrite armProject.arch]) ∧
    readFinal armInitState.writes armProject.arch.sp_offset
      = some (specDefaultSp armProject.arch.name) := by
  have h := C5_amended_write_order armProject none none armInitState (by decide)
  exact ⟨h.1, h.2.1 rfl (by decide)⟩

end Angr
